import Mathlib

/-!
Verification of the natural-language analytics query engine of the
propel-backend repository (`analytics/ask_views.py`, `analytics/gemini_client.py`),
with the Plan Executor (`analytics/analytics_executor.py`, imported but not part
of the source tree) modelled from the specification.
-/

namespace Propel

/-- Substring test on character lists: `charsPrefixOf p s` holds when `p` is a
prefix of `s`. Models the leading-match step of the Python `in` operator. -/
def charsPrefixOf : List Char → List Char → Bool
  | [], _ => true
  | _ :: _, [] => false
  | a :: as, b :: bs => a == b && charsPrefixOf as bs

/-- `charsInfixOf p s` holds when `p` occurs contiguously inside `s`. -/
def charsInfixOf (pat : List Char) : List Char → Bool
  | [] => charsPrefixOf pat []
  | b :: rest => charsPrefixOf pat (b :: rest) || charsInfixOf pat rest

/-- `strContains s pat` models the Python `pat in s` substring containment. -/
def strContains (s pat : String) : Bool :=
  charsInfixOf pat.toList s.toList

/-- Models the Python `any(word in prompt_lower for word in ws)`. -/
def anyWord (p : String) (ws : List String) : Bool :=
  ws.any (fun w => strContains p w)

/-- Models the Python `str.strip()`: drop whitespace at both ends. -/
def pyStrip (s : String) : String :=
  ⟨((s.toList.dropWhile Char.isWhitespace).reverse.dropWhile Char.isWhitespace).reverse⟩

/-- Models the Python `str.lower()` on ASCII text. -/
def pyLower (s : String) : String :=
  ⟨s.toList.map Char.toLower⟩

/-- Models the Python `s.startswith(pat)`. -/
def pyStartsWith (s pat : String) : Bool :=
  charsPrefixOf pat.toList s.toList

/-- The transient query plan of `ask_views.py` / spec section 3: dataset name,
ordered metric keys, ordered dimension keys, exact-match filters, chart type
and row limit. -/
structure Plan where
  dataset : String
  metrics : List String
  dimensions : List String
  filters : List (String × String)
  chart_type : String
  limit : Nat
  deriving Repr, DecidableEq

/-- Embeds `AskAPIView._create_fallback_plan` (`analytics/ask_views.py`,
lines 194-245): the keyword-driven Heuristic Planner.  The chart-type cue scan
and the dataset `if/elif` chain are transcribed branch by branch. -/
def create_fallback_plan (p : String) : Plan :=
  let chart_type :=
    if strContains p "pie" || strContains p "pie chart" then "pie"
    else if strContains p "bar" || strContains p "bar chart" then "bar"
    else if strContains p "line" || strContains p "line chart" || strContains p "trend" then "line"
    else if strContains p "table" || strContains p "list" || strContains p "show" then "table"
    else "answer"
  if anyWord p ["employee", "staff", "team", "people", "worker"] then
    if anyWord p ["by role", "by department", "breakdown"] then
      ⟨"employee", [], ["role"], [], if chart_type ≠ "answer" then chart_type else "bar", 50⟩
    else ⟨"employee", [], [], [], "answer", 1⟩
  else if anyWord p ["customer", "client", "buyer"] then
    if anyWord p ["by status", "breakdown", "by stage"] then
      ⟨"customer", [], ["status"], [], if chart_type ≠ "answer" then chart_type else "pie", 50⟩
    else ⟨"customer", [], [], [], "answer", 1⟩
  else if anyWord p ["project", "development", "site"] then
    if anyWord p ["by status", "breakdown"] then
      ⟨"project", [], ["status"], [], if chart_type ≠ "answer" then chart_type else "pie", 50⟩
    else if strContains p "list" || strContains p "show" || strContains p "all" ||
        strContains p "graph" || strContains p "chart" then
      ⟨"project", [], ["name"], [], if chart_type ≠ "answer" then chart_type else "bar", 50⟩
    else ⟨"project", [], [], [], "answer", 1⟩
  else if anyWord p ["booking", "booked", "reservation"] then
    if anyWord p ["by project", "breakdown"] then
      ⟨"booking", ["booking_value"], ["project"], [], if chart_type ≠ "answer" then chart_type else "bar", 50⟩
    else ⟨"booking", ["booking_value"], [], [], "answer", 1⟩
  else if anyWord p ["unit", "flat", "apartment", "inventory"] then
    if anyWord p ["by status", "breakdown"] then
      ⟨"unit", [], ["status"], [], if chart_type ≠ "answer" then chart_type else "pie", 50⟩
    else ⟨"unit", [], [], [], "answer", 1⟩
  else if anyWord p ["marketing", "campaign", "ads", "advertising"] then
    if anyWord p ["by channel", "breakdown"] then
      ⟨"marketing_campaign", ["spend"], ["channel"], [], if chart_type ≠ "answer" then chart_type else "pie", 50⟩
    else ⟨"marketing_campaign", ["spend", "leads", "bookings"], [], [], "answer", 1⟩
  else if anyWord p ["revenue", "sales", "income", "money"] then
    ⟨"org_kpi", ["revenue_booked", "revenue_collected"], [], [], "answer", 1⟩
  else
    ⟨"org_kpi", ["revenue_booked"], [], [], "answer", 1⟩

/-- Embeds `AskAPIView._apply_chart_type_from_prompt` (`analytics/ask_views.py`,
lines 247-259): the Chart-Type Resolver.  The Python method mutates
`plan["chart_type"]` in place; here it returns the updated plan. -/
def apply_chart_type_from_prompt (p : String) (plan : Plan) : Plan :=
  if strContains p "pie chart" || strContains p " pie " || pyStartsWith (pyStrip p) "pie " then
    { plan with chart_type := "pie" }
  else if strContains p "bar graph" || strContains p "bar chart" ||
      (strContains p "bar" && strContains p "chart") then
    { plan with chart_type := "bar" }
  else if strContains p "line chart" || strContains p "line graph" ||
      (strContains p "line" && strContains p "chart") then
    { plan with chart_type := "line" }
  else if plan.dimensions ≠ [] && (plan.chart_type = "table" || plan.chart_type = "answer") then
    { plan with chart_type := "pie" }
  else plan

/-- The Heuristic Planner dataset categories, in the priority order of the
`if/elif` chain of `_create_fallback_plan`. -/
inductive Category where
  | employee
  | customer
  | project
  | booking
  | unitCat
  | marketing
  | orgKpi
  deriving Repr, DecidableEq

/-- The keyword set of each dataset category, as listed in the `any(word in
prompt_lower ...)` tests of `_create_fallback_plan`. -/
def catKeywords : Category → List String
  | .employee => ["employee", "staff", "team", "people", "worker"]
  | .customer => ["customer", "client", "buyer"]
  | .project => ["project", "development", "site"]
  | .booking => ["booking", "booked", "reservation"]
  | .unitCat => ["unit", "flat", "apartment", "inventory"]
  | .marketing => ["marketing", "campaign", "ads", "advertising"]
  | .orgKpi => ["revenue", "sales", "income", "money"]

/-- The dataset name each category maps to. -/
def catDataset : Category → String
  | .employee => "employee"
  | .customer => "customer"
  | .project => "project"
  | .booking => "booking"
  | .unitCat => "unit"
  | .marketing => "marketing_campaign"
  | .orgKpi => "org_kpi"

/-- The secondary keywords that, inside a matched category, switch
`_create_fallback_plan` from the degenerate plan to a grouped plan.  For the
project category this includes the listing keywords of its extra
`list/show/all/graph/chart` branch. -/
def catSecondary : Category → List String
  | .employee => ["by role", "by department", "breakdown"]
  | .customer => ["by status", "breakdown", "by stage"]
  | .project => ["by status", "breakdown", "list", "show", "all", "graph", "chart"]
  | .booking => ["by project", "breakdown"]
  | .unitCat => ["by status", "breakdown"]
  | .marketing => ["by channel", "breakdown"]
  | .orgKpi => []

/-- The metrics of the degenerate (no secondary keyword) plan of each
category in `_create_fallback_plan`. -/
def catDefaultMetrics : Category → List String
  | .booking => ["booking_value"]
  | .marketing => ["spend", "leads", "bookings"]
  | .orgKpi => ["revenue_booked", "revenue_collected"]
  | _ => []

/-- `catMatches c p` holds when prompt `p` contains a keyword of category `c`. -/
def catMatches (c : Category) (p : String) : Bool :=
  anyWord p (catKeywords c)

/-- The fixed priority order of the `if/elif` chain. -/
def categoryOrder : List Category :=
  [.employee, .customer, .project, .booking, .unitCat, .marketing, .orgKpi]

/-- First category (in priority order) whose keyword set matches the prompt. -/
def firstCategory (p : String) : Option Category :=
  categoryOrder.find? (fun c => catMatches c p)

/-- The degenerate plan a category produces when none of its secondary
keywords occur. -/
def degeneratePlan (c : Category) : Plan :=
  ⟨catDataset c, catDefaultMetrics c, [], [], "answer", 1⟩

/-- The dataset picked by `_create_fallback_plan` is the dataset of the first
matching category in priority order (`org_kpi` when nothing matches). -/
lemma create_fallback_plan_dataset (p : String) :
    (create_fallback_plan p).dataset = catDataset ((firstCategory p).getD .orgKpi) := by
  unfold create_fallback_plan
  simp only [apply_ite Plan.dataset, ite_self]
  unfold firstCategory categoryOrder catMatches catKeywords
  by_cases h1 : anyWord p ["employee", "staff", "team", "people", "worker"] = true
  · simp [h1, List.find?, catDataset]
  · rw [Bool.not_eq_true] at h1
    by_cases h2 : anyWord p ["customer", "client", "buyer"] = true
    · simp [h1, h2, List.find?, catDataset]
    · rw [Bool.not_eq_true] at h2
      by_cases h3 : anyWord p ["project", "development", "site"] = true
      · simp [h1, h2, h3, List.find?, catDataset]
      · rw [Bool.not_eq_true] at h3
        by_cases h4 : anyWord p ["booking", "booked", "reservation"] = true
        · simp [h1, h2, h3, h4, List.find?, catDataset]
        · rw [Bool.not_eq_true] at h4
          by_cases h5 : anyWord p ["unit", "flat", "apartment", "inventory"] = true
          · simp [h1, h2, h3, h4, h5, List.find?, catDataset]
          · rw [Bool.not_eq_true] at h5
            by_cases h6 : anyWord p ["marketing", "campaign", "ads", "advertising"] = true
            · simp [h1, h2, h3, h4, h5, h6, List.find?, catDataset]
            · rw [Bool.not_eq_true] at h6
              by_cases h7 : anyWord p ["revenue", "sales", "income", "money"] = true
              · simp [h1, h2, h3, h4, h5, h6, h7, List.find?, catDataset]
              · rw [Bool.not_eq_true] at h7
                simp [h1, h2, h3, h4, h5, h6, h7, List.find?, catDataset]

/-- When the first matching category has none of its secondary keywords in the
prompt, `_create_fallback_plan` returns that category degenerate plan. -/
lemma create_fallback_plan_degenerate (p : String) (c : Category)
    (hfirst : firstCategory p = some c)
    (hsec : anyWord p (catSecondary c) = false) :
    create_fallback_plan p = degeneratePlan c := by
  by_cases h1 : anyWord p ["employee", "staff", "team", "people", "worker"] = true
  · have hce : firstCategory p = some Category.employee := by
      simp [firstCategory, categoryOrder, List.find?, catMatches, catKeywords, h1]
    rw [hce] at hfirst
    obtain rfl : Category.employee = c := Option.some.inj hfirst
    simp only [catSecondary] at hsec
    simp [create_fallback_plan, h1, hsec, degeneratePlan, catDataset, catDefaultMetrics]
  · rw [Bool.not_eq_true] at h1
    by_cases h2 : anyWord p ["customer", "client", "buyer"] = true
    · have hce : firstCategory p = some Category.customer := by
        simp [firstCategory, categoryOrder, List.find?, catMatches, catKeywords, h1, h2]
      rw [hce] at hfirst
      obtain rfl : Category.customer = c := Option.some.inj hfirst
      simp only [catSecondary] at hsec
      simp [create_fallback_plan, h1, h2, hsec, degeneratePlan, catDataset, catDefaultMetrics]
    · rw [Bool.not_eq_true] at h2
      by_cases h3 : anyWord p ["project", "development", "site"] = true
      · have hce : firstCategory p = some Category.project := by
          simp [firstCategory, categoryOrder, List.find?, catMatches, catKeywords, h1, h2, h3]
        rw [hce] at hfirst
        obtain rfl : Category.project = c := Option.some.inj hfirst
        simp only [catSecondary, anyWord, List.any_cons, List.any_nil,
          Bool.or_eq_false_iff] at hsec
        obtain ⟨s1, s2, s3, s4, s5, s6, s7, -⟩ := hsec
        have hA : anyWord p ["by status", "breakdown"] = false := by
          simp [anyWord, s1, s2]
        simp [create_fallback_plan, h1, h2, h3, hA, s3, s4, s5, s6, s7,
          degeneratePlan, catDataset, catDefaultMetrics]
      · rw [Bool.not_eq_true] at h3
        by_cases h4 : anyWord p ["booking", "booked", "reservation"] = true
        · have hce : firstCategory p = some Category.booking := by
            simp [firstCategory, categoryOrder, List.find?, catMatches, catKeywords,
              h1, h2, h3, h4]
          rw [hce] at hfirst
          obtain rfl : Category.booking = c := Option.some.inj hfirst
          simp only [catSecondary] at hsec
          simp [create_fallback_plan, h1, h2, h3, h4, hsec, degeneratePlan, catDataset,
            catDefaultMetrics]
        · rw [Bool.not_eq_true] at h4
          by_cases h5 : anyWord p ["unit", "flat", "apartment", "inventory"] = true
          · have hce : firstCategory p = some Category.unitCat := by
              simp [firstCategory, categoryOrder, List.find?, catMatches, catKeywords,
                h1, h2, h3, h4, h5]
            rw [hce] at hfirst
            obtain rfl : Category.unitCat = c := Option.some.inj hfirst
            simp only [catSecondary] at hsec
            simp [create_fallback_plan, h1, h2, h3, h4, h5, hsec, degeneratePlan, catDataset,
              catDefaultMetrics]
          · rw [Bool.not_eq_true] at h5
            by_cases h6 : anyWord p ["marketing", "campaign", "ads", "advertising"] = true
            · have hce : firstCategory p = some Category.marketing := by
                simp [firstCategory, categoryOrder, List.find?, catMatches, catKeywords,
                  h1, h2, h3, h4, h5, h6]
              rw [hce] at hfirst
              obtain rfl : Category.marketing = c := Option.some.inj hfirst
              simp only [catSecondary] at hsec
              simp [create_fallback_plan, h1, h2, h3, h4, h5, h6, hsec, degeneratePlan,
                catDataset, catDefaultMetrics]
            · rw [Bool.not_eq_true] at h6
              by_cases h7 : anyWord p ["revenue", "sales", "income", "money"] = true
              · have hce : firstCategory p = some Category.orgKpi := by
                  simp [firstCategory, categoryOrder, List.find?, catMatches, catKeywords,
                    h1, h2, h3, h4, h5, h6, h7]
                rw [hce] at hfirst
                obtain rfl : Category.orgKpi = c := Option.some.inj hfirst
                simp [create_fallback_plan, h1, h2, h3, h4, h5, h6, h7, degeneratePlan,
                  catDataset, catDefaultMetrics]
              · rw [Bool.not_eq_true] at h7
                have hce : firstCategory p = none := by
                  simp [firstCategory, categoryOrder, List.find?, catMatches, catKeywords,
                    h1, h2, h3, h4, h5, h6, h7]
                rw [hce] at hfirst
                exact absurd hfirst (by simp)

/-- Claim C3, counterexample: on the prompt "what\u0027s my total revenue?" the
Heuristic Planner does not return the claimed plan with metrics
`[revenue_booked]`; the revenue branch of `_create_fallback_plan` also adds
`revenue_collected`. -/
theorem claim_C3_counterexample :
    create_fallback_plan "what\u0027s my total revenue?" ≠
      ⟨"org_kpi", ["revenue_booked"], [], [], "answer", 1⟩ := by decide

/-- Claim C3, amended: on the prompt "what\u0027s my total revenue?" the Heuristic
Planner returns exactly `{dataset: org_kpi, metrics: [revenue_booked,
revenue_collected], dimensions: [], chart_type: answer, limit: 1}`. -/
theorem claim_C3_amended :
    create_fallback_plan "what\u0027s my total revenue?" =
      ⟨"org_kpi", ["revenue_booked", "revenue_collected"], [], [], "answer", 1⟩ := by decide

/-- Claim C4, counterexample: on the prompt "show employees by role" the
Heuristic Planner sets chart_type "table" (the word "show" fires the table
cue), not the claimed "bar"; "bar" is only the default when no cue matched. -/
theorem claim_C4_counterexample :
    (create_fallback_plan "show employees by role").chart_type ≠ "bar" ∧
    (create_fallback_plan "show employees by role").chart_type = "table" := by decide

/-- Claim C4, amended: on the prompt "show employees by role" the Heuristic
Planner returns dataset employee, dimensions [role], chart_type table, and
limit 50. -/
theorem claim_C4_amended :
    create_fallback_plan "show employees by role" =
      ⟨"employee", [], ["role"], [], "table", 50⟩ := by decide

/-- Claim C5, counterexample: the prompt "booking" matches a dataset category
and contains none of the claimed secondary grouping keywords, yet the
returned degenerate plan has non-empty metrics (`["booking_value"]`). -/
theorem claim_C5_counterexample :
    (firstCategory "booking").isSome = true ∧
    anyWord "booking" ["by status", "by role", "by department", "by channel", "breakdown"]
      = false ∧
    (create_fallback_plan "booking").metrics ≠ [] := by decide

/-- Claim C5, amended: for every input text whose first matching category
carries none of that category own secondary grouping keywords, the returned
degenerate plan has the category default metrics (empty for employee,
customer, project, unit; `[booking_value]` for booking; `[spend, leads,
bookings]` for marketing_campaign; `[revenue_booked, revenue_collected]` for
org_kpi), empty dimensions, limit 1 and chart_type "answer". -/
theorem claim_C5_amended (p : String) (c : Category)
    (hfirst : firstCategory p = some c)
    (hsec : anyWord p (catSecondary c) = false) :
    (create_fallback_plan p).metrics = catDefaultMetrics c ∧
    (create_fallback_plan p).dimensions = [] ∧
    (create_fallback_plan p).limit = 1 ∧
    (create_fallback_plan p).chart_type = "answer" := by
  rw [create_fallback_plan_degenerate p c hfirst hsec]
  exact ⟨rfl, rfl, rfl, rfl⟩

/-- Claim C5, witness: the amended claim applied to prompt "booking". -/
theorem claim_C5_witness :
    firstCategory "booking" = some Category.booking ∧
    anyWord "booking" (catSecondary Category.booking) = false ∧
    ((create_fallback_plan "booking").metrics = catDefaultMetrics Category.booking ∧
     (create_fallback_plan "booking").dimensions = [] ∧
     (create_fallback_plan "booking").limit = 1 ∧
     (create_fallback_plan "booking").chart_type = "answer") :=
  ⟨by decide, by decide,
    claim_C5_amended "booking" Category.booking (by decide) (by decide)⟩

/-- Claim C6: for every input text matching two or more category keyword
sets, the dataset chosen by the Heuristic Planner is that of the first
matching category in the fixed priority order employee, customer, project,
booking, unit, marketing_campaign, org_kpi. -/
theorem claim_C6 (p : String) (c : Category)
    (hmulti : 2 ≤ (categoryOrder.filter (fun d => catMatches d p)).length)
    (hfirst : firstCategory p = some c) :
    (create_fallback_plan p).dataset = catDataset c := by
  have h := create_fallback_plan_dataset p
  rw [hfirst] at h
  exact h

/-- Claim C6, witness: "project booking" matches both the project and booking
categories and is classified as project. -/
theorem claim_C6_witness :
    2 ≤ (categoryOrder.filter (fun d => catMatches d "project booking")).length ∧
    firstCategory "project booking" = some Category.project ∧
    (create_fallback_plan "project booking").dataset = catDataset Category.project :=
  ⟨by decide, by decide,
    claim_C6 "project booking" Category.project (by decide) (by decide)⟩

/-- Claim C7: for every plan with chart_type "table" and non-empty
dimensions, if the text contains the explicit cue "pie chart" the Chart-Type
Resolver sets chart_type "pie": the explicit cue branch fires before the
dimension-based default-upgrade branch. -/
theorem claim_C7 (p : String) (plan : Plan)
    (hcue : strContains p "pie chart" = true)
    (hct : plan.chart_type = "table")
    (hdim : plan.dimensions ≠ []) :
    (apply_chart_type_from_prompt p plan).chart_type = "pie" := by
  unfold apply_chart_type_from_prompt
  simp [hcue]

/-- Claim C7, witness: the resolver applied to the prompt
"show units as pie chart" and the plan `{unit, [], [status], {}, table, 50}`. -/
theorem claim_C7_witness :
    strContains "show units as pie chart" "pie chart" = true ∧
    (Plan.mk "unit" [] ["status"] [] "table" 50).chart_type = "table" ∧
    (Plan.mk "unit" [] ["status"] [] "table" 50).dimensions ≠ [] ∧
    (apply_chart_type_from_prompt "show units as pie chart"
        (Plan.mk "unit" [] ["status"] [] "table" 50)).chart_type = "pie" :=
  ⟨by decide, rfl, by decide,
    claim_C7 "show units as pie chart" (Plan.mk "unit" [] ["status"] [] "table" 50)
      (by decide) rfl (by decide)⟩

/-- Claim C9: the Chart-Type Resolver changes only the chart_type entry: for
every prompt and plan, dataset, metrics, dimensions, filters and limit are
unchanged. -/
theorem claim_C9 (p : String) (plan : Plan) :
    (apply_chart_type_from_prompt p plan).dataset = plan.dataset ∧
    (apply_chart_type_from_prompt p plan).metrics = plan.metrics ∧
    (apply_chart_type_from_prompt p plan).dimensions = plan.dimensions ∧
    (apply_chart_type_from_prompt p plan).filters = plan.filters ∧
    (apply_chart_type_from_prompt p plan).limit = plan.limit := by
  unfold apply_chart_type_from_prompt
  split
  · exact ⟨rfl, rfl, rfl, rfl, rfl⟩
  · split
    · exact ⟨rfl, rfl, rfl, rfl, rfl⟩
    · split
      · exact ⟨rfl, rfl, rfl, rfl, rfl⟩
      · split
        · exact ⟨rfl, rfl, rfl, rfl, rfl⟩
        · exact ⟨rfl, rfl, rfl, rfl, rfl⟩

/-- The result dictionary of `run_plan` as consumed by `AskAPIView.post`:
the `answer`, `chart` and `table` entries read with `.get`. -/
structure ExecOut (χ τ : Type) where
  answer : Option String
  chart : Option χ
  table : Option τ
  deriving DecidableEq

/-- The responses `AskAPIView.post` can produce: the 400 missing-prompt
response, the 403 missing-organization response, and the 200 payload with
plan, answer, chart, table and the optional gemini failure fields. -/
inductive AskResponse (χ τ : Type) where
  | badRequest (error : String)
  | forbidden (error : String)
  | ok (plan : Option Plan) (answer : String) (chart : Option χ) (table : Option τ)
      (gemini_failed : Bool) (gemini_error : Option String)
  deriving DecidableEq

/-- The greeting tuple test of `AskAPIView.post` (line 276). -/
def isGreeting (s : String) : Bool :=
  s == "hi" || s == "hello" || s == "help" || s == "what can you do?"

/-- The canned help answer of `AskAPIView.post` (lines 277-283). -/
def helpAnswer : String :=
  "I can help you analyze your organization\u0027s data. Try asking:\n- \u0027What\u0027s my total revenue?\u0027\n- \u0027Show me marketing campaigns by channel\u0027\n- \u0027List my top projects by revenue\u0027\n- \u0027What\u0027s my total bookings this month?\u0027"

/-- The fallback response of `AskAPIView.post` (lines 291-305), built when
`ask_gemini` yields nothing: Heuristic Planner, then Chart-Type Resolver,
then plan execution, with the gemini failure fields set. -/
def fallbackResponse {χ τ : Type} (promptLower : String) (lastError : Option String)
    (runPlan : Plan → Nat → ExecOut χ τ) (o : Nat) : AskResponse χ τ :=
  let fb := apply_chart_type_from_prompt promptLower (create_fallback_plan promptLower)
  let result := runPlan fb o
  .ok (some fb) (result.answer.getD "Unable to process query. Please try rephrasing.")
    result.chart result.table true lastError

/-- Embeds `AskAPIView.post` (`analytics/ask_views.py`, lines 261-340).  The
request boundary collaborators — the resolved organization, the Gemini call,
`get_last_gemini_error`, `extract_json` and `run_plan` — enter as explicit
parameters; the Python truthiness test `if not gemini_response` is the
`none`-or-empty test on the Gemini result. -/
def postHandler {χ τ : Type} (rawPrompt : String) (org : Option Nat)
    (askGemini : String → Option String) (lastGeminiError : Option String)
    (extractJson : String → Option Plan) (runPlan : Plan → Nat → ExecOut χ τ) :
    AskResponse χ τ :=
  let prompt := pyStrip rawPrompt
  if prompt = "" then .badRequest "Prompt is required."
  else
    match org with
    | none => .forbidden "No organization mapped to user. Org admin access required."
    | some o =>
      let promptLower := pyLower prompt
      if isGreeting promptLower then
        .ok none helpAnswer none none false none
      else
        match askGemini prompt with
        | none => fallbackResponse promptLower lastGeminiError runPlan o
        | some resp =>
          if resp = "" then fallbackResponse promptLower lastGeminiError runPlan o
          else
            match extractJson resp with
            | none =>
              .ok none "Could not parse query plan. Please try rephrasing." none none false none
            | some plan0 =>
              let plan1 := apply_chart_type_from_prompt promptLower plan0
              let result := runPlan plan1 o
              .ok (some plan1) (result.answer.getD "Query executed successfully.")
                result.chart result.table false none

/-- Claim C2, counterexample: when the model responds with text from which no
JSON object is extracted, `AskAPIView.post` answers "Could not parse query
plan." with a null plan and null chart and table — the Heuristic Planner is
not invoked and no plan is executed, although the executor was available (it
would have answered "executed"). -/
theorem claim_C2_counterexample :
    postHandler "how many units?" (some 1) (fun _ => some "no json here") none
      (fun _ => none)
      (fun _ _ => (ExecOut.mk (some "executed") none none : ExecOut Unit Unit)) =
      .ok none "Could not parse query plan. Please try rephrasing." none none false none := by
  decide

/-- Claim C2, amended: only the failure of the Gemini call itself (`ask_gemini`
yielding nothing) triggers the Heuristic Planner, after which the plan is
executed; when the model responded but no well-formed JSON object can be
extracted, the endpoint instead returns a fixed "Could not parse query plan."
answer with no plan, no chart and no table, without invoking the Heuristic
Planner or the Plan Executor. -/
theorem claim_C2_amended {χ τ : Type} (rawPrompt : String) (o : Nat)
    (gem : String → Option String) (err : Option String)
    (ext : String → Option Plan) (run : Plan → Nat → ExecOut χ τ)
    (hne : pyStrip rawPrompt ≠ "")
    (hgreet : isGreeting (pyLower (pyStrip rawPrompt)) = false) :
    (gem (pyStrip rawPrompt) = none →
      postHandler rawPrompt (some o) gem err ext run =
        fallbackResponse (pyLower (pyStrip rawPrompt)) err run o) ∧
    (∀ resp, gem (pyStrip rawPrompt) = some resp → resp ≠ "" → ext resp = none →
      postHandler rawPrompt (some o) gem err ext run =
        .ok none "Could not parse query plan. Please try rephrasing." none none false none) := by
  constructor
  · intro hnone
    unfold postHandler
    rw [if_neg hne]
    simp [hgreet, hnone]
  · intro resp hresp hrne hext
    unfold postHandler
    rw [if_neg hne]
    simp [hgreet, hresp, hrne, hext]

/-- Claim C2, witness: with the Gemini call yielding nothing, the prompt
"how many staff members?" is answered through the Heuristic Planner and the
executor. -/
theorem claim_C2_witness :
    postHandler "how many staff members?" (some 3) (fun _ => none) (some "no key")
      (fun _ => none)
      (fun _ _ => (ExecOut.mk (some "ran") none none : ExecOut Unit Unit)) =
      .ok (some (Plan.mk "employee" [] [] [] "answer" 1)) "ran" none none true
        (some "no key") := by
  have h := (claim_C2_amended "how many staff members?" 3 (fun _ => none) (some "no key")
      (fun _ => none)
      (fun _ _ => (ExecOut.mk (some "ran") none none : ExecOut Unit Unit))
      (by decide) (by decide)).1 rfl
  rw [h]
  decide

/-- Claim C10: for every prompt whose stripped, lowercased text is "hi",
"hello", "help" or "what can you do?", and any resolved organization, the
endpoint returns the fixed canned help response with plan, chart and table
all null; the result is the same for every model client, JSON extractor and
executor, so none of them is consulted. -/
theorem claim_C10 {χ τ : Type} (rawPrompt : String) (o : Nat)
    (askGemini : String → Option String) (lastErr : Option String)
    (extractJson : String → Option Plan) (runPlan : Plan → Nat → ExecOut χ τ)
    (hg : isGreeting (pyLower (pyStrip rawPrompt)) = true) :
    postHandler rawPrompt (some o) askGemini lastErr extractJson runPlan =
      .ok none helpAnswer none none false none := by
  have hne : ¬(pyStrip rawPrompt = "") := by
    intro h
    rw [h] at hg
    exact absurd hg (by decide)
  unfold postHandler
  rw [if_neg hne]
  simp [hg]

/-- Claim C10, witness: the prompt "  Hello  " with every collaborator
supplied and answering, yet the canned help response is returned. -/
theorem claim_C10_witness :
    postHandler "  Hello  " (some 7) (fun _ => some "model text") (some "stale")
      (fun _ => some (Plan.mk "unit" [] [] [] "answer" 1))
      (fun _ _ => (ExecOut.mk (some "executed") none none : ExecOut Unit Unit)) =
      .ok none helpAnswer none none false none :=
  claim_C10 "  Hello  " 7 (fun _ => some "model text") (some "stale")
    (fun _ => some (Plan.mk "unit" [] [] [] "answer" 1))
    (fun _ _ => (ExecOut.mk (some "executed") none none : ExecOut Unit Unit))
    (by decide)

/-- Outcome environment of one `ask_gemini` call: each constructor is one
failure or success path of `analytics/gemini_client.py` (missing dependency,
missing `GEMINI_API_KEY`, no response object, blocked prompt, no candidates,
a raised transport error, unreadable response text, or readable text with a
possibly abnormal finish reason). -/
inductive GeminiEnv where
  | depMissing
  | keyMissing
  | noResponse
  | blocked (reason : String)
  | noCandidates
  | transportError (exTy exMsg : String)
  | textUnreadable (exMsg : String)
  | textOk (finishAbnormal : Bool) (finishReason : String) (text : String)
  deriving Repr, DecidableEq

/-- Embeds `ask_gemini` (`analytics/gemini_client.py`, lines 46-106) as a
total function from the call outcome to the pair (returned text?, recorded
`_last_gemini_error`).  Every Python `raise` inside the call is caught by the
`except` clauses of `ask_gemini`, which is why each failure is a constructor
ending in a `none` result rather than a propagated exception. -/
def ask_gemini (env : GeminiEnv) : Option String × Option String :=
  match env with
  | .depMissing =>
      (none, some "google-generativeai is not installed. Run: pip install google-generativeai")
  | .keyMissing =>
      (none, some "GEMINI_API_KEY not set. Add it to .env in the backend folder (propel-insights-backend/.env).")
  | .noResponse => (none, some "Gemini returned no response object.")
  | .blocked reason => (none, some ("Gemini blocked the prompt: " ++ reason))
  | .noCandidates => (none, some "Gemini returned no candidates (empty or blocked).")
  | .transportError exTy exMsg => (none, some (exTy ++ ": " ++ exMsg))
  | .textUnreadable exMsg => (none, some ("Gemini response not readable: " ++ exMsg))
  | .textOk ab fr t =>
      if pyStrip t = "" then (none, some "Gemini returned empty text.")
      else (some t, if ab then some ("Gemini stopped: " ++ fr) else none)

/-- A string whose left append component is non-empty is non-empty. -/
lemma str_append_ne_empty (s r : String) (hs : 0 < s.length) : s ++ r ≠ "" := by
  intro he
  have hl := congrArg String.length he
  rw [String.length_append] at hl
  have hz : ("" : String).length = 0 := rfl
  rw [hz] at hl
  omega

/-- A three-part string append with a non-empty middle part is non-empty. -/
lemma str_append3_ne_empty (a b c : String) (hb : 0 < b.length) : a ++ b ++ c ≠ "" := by
  intro he
  have hl := congrArg String.length he
  rw [String.length_append, String.length_append] at hl
  have hz : ("" : String).length = 0 := rfl
  rw [hz] at hl
  omega

/-- Claim C8: on every outcome of the Gemini call — missing dependency,
missing credential, transport error, blocked or empty response, unreadable
text — `ask_gemini` either returns the model response text or returns `none`
together with a non-empty human-readable error cause; being a total function
of the outcome, no exception propagates past this boundary. -/
theorem claim_C8 (env : GeminiEnv) :
    (∃ t, (ask_gemini env).1 = some t) ∨
    ((ask_gemini env).1 = none ∧
      ∃ msg, (ask_gemini env).2 = some msg ∧ msg ≠ "") := by
  cases env with
  | depMissing => exact .inr ⟨rfl, _, rfl, by decide⟩
  | keyMissing => exact .inr ⟨rfl, _, rfl, by decide⟩
  | noResponse => exact .inr ⟨rfl, _, rfl, by decide⟩
  | blocked reason =>
      exact .inr ⟨rfl, _, rfl, str_append_ne_empty "Gemini blocked the prompt: " reason (by decide)⟩
  | noCandidates => exact .inr ⟨rfl, _, rfl, by decide⟩
  | transportError exTy exMsg =>
      exact .inr ⟨rfl, _, rfl, str_append3_ne_empty exTy ": " exMsg (by decide)⟩
  | textUnreadable exMsg =>
      exact .inr ⟨rfl, _, rfl, str_append_ne_empty "Gemini response not readable: " exMsg (by decide)⟩
  | textOk ab fr t =>
      by_cases ht : pyStrip t = ""
      · right
        refine ⟨?_, "Gemini returned empty text.", ?_, by decide⟩ <;> simp [ask_gemini, ht]
      · left
        exact ⟨t, by simp [ask_gemini, ht]⟩

/-- Modelled from the spec: a literal field value in a record source (the
`analytics_executor.py` file is imported by `ask_views.py` but absent from the
source tree; sections 3 and 4.6 of the spec describe its data).  Numeric and
string values suffice for the aggregation semantics. -/
inductive Value where
  | num (n : Int)
  | str (s : String)
  deriving Repr, DecidableEq

/-- Modelled from the spec: one record of a tenant-scoped data source — the
owning organization and the flattened field mapping. -/
structure Record where
  org : Nat
  fields : List (String × Value)
  deriving Repr, DecidableEq

/-- Field lookup inside a record. -/
def getField (r : Record) (k : String) : Option Value :=
  (r.fields.find? (fun kv => kv.1 == k)).map (fun kv => kv.2)

/-- Modelled from the spec: one Field Catalog entry (section 3), reduced to
what validation consults: dataset scope, key, numeric data type, enabled. -/
structure CatalogEntry where
  dataset : String
  key : String
  numeric : Bool
  enabled : Bool
  deriving Repr, DecidableEq

/-- A key resolves to an enabled catalog entry of the dataset. -/
def catHas (cat : List CatalogEntry) (ds k : String) : Bool :=
  cat.any (fun e => e.dataset == ds && e.key == k && e.enabled)

/-- A key resolves to an enabled numeric catalog entry of the dataset. -/
def catHasNumeric (cat : List CatalogEntry) (ds k : String) : Bool :=
  cat.any (fun e => e.dataset == ds && e.key == k && e.enabled && e.numeric)

/-- Rendering of an optional field value as a group label / filter literal. -/
def valueLabel : Option Value → String
  | some (.num n) => toString n
  | some (.str s) => s
  | none => ""

/-- Numeric reading of a metric field (non-numeric values contribute 0). -/
def metricValue (r : Record) (k : String) : Int :=
  match getField r k with
  | some (.num n) => n
  | _ => 0

/-- Sum aggregate of one metric over a row set. -/
def sumMetric (rows : List Record) (k : String) : Int :=
  (rows.map (fun r => metricValue r k)).sum

/-- Exact-match filter predicate (spec section 4.6 step 4). -/
def matchesFilter (r : Record) (kv : String × String) : Bool :=
  valueLabel (getField r kv.1) == kv.2

/-- The ordered group key of a record under the dimension list. -/
def groupKeyOf (dims : List String) (r : Record) : List String :=
  dims.map (fun k => valueLabel (getField r k))

/-- Lexicographic strict order on group keys, for the deterministic
tie-break. -/
def strListLt : List String → List String → Bool
  | [], [] => false
  | [], _ :: _ => true
  | _ :: _, [] => false
  | a :: as, b :: bs => if a < b then true else if a == b then strListLt as bs else false

/-- Group ordering of spec section 4.6 step 5: first aggregate descending,
ties broken by group key ascending. -/
def groupLe (a b : List String × List Int) : Bool :=
  if a.2.headD 0 = b.2.headD 0 then strListLt a.1 b.1 || a.1 == b.1
  else b.2.headD 0 < a.2.headD 0

/-- Insertion step of the deterministic sort. -/
def insertSorted {α : Type} (le : α → α → Bool) (a : α) : List α → List α
  | [] => [a]
  | b :: l => if le a b then a :: b :: l else b :: insertSorted le a l

/-- Insertion sort by a boolean order. -/
def sortBy {α : Type} (le : α → α → Bool) : List α → List α
  | [] => []
  | a :: l => insertSorted le a (sortBy le l)

/-- Modelled from the spec: the QueryResult of section 3 — exactly one of an
Answer (with the failure status of section 4.6 step 1), a Chart, or a Table. -/
inductive QueryResult where
  | answerRes (value : Int) (label : String) (ok : Bool)
  | chartRes (chart_type : String) (labels : List String) (series : List (List Int))
  | tableRes (rows : List (List String × List Int))
  deriving Repr, DecidableEq

/-- Modelled from the spec: steps 2 and 4-7 of the Plan Executor (section
4.6) applied after tenant scoping — validate keys against the catalog
silently dropping unknown ones, apply remaining exact-match filters, then the
grouped path (group by dimensions, Sum each numeric metric or Count, order by
first aggregate descending with key tie-break, truncate to the clamped
limit) or the scalar path (single Sum/Count answer, or one table row per
metric), shaped by chart_type. -/
def run_plan_scoped (cat : List CatalogEntry) (plan : Plan) (scopedRows : List Record) :
    QueryResult :=
  let ds := plan.dataset
  let metrics := plan.metrics.filter (fun k => catHasNumeric cat ds k)
  let dims := plan.dimensions.filter (fun k => catHas cat ds k)
  let filters := plan.filters.filter (fun kv => catHas cat ds kv.1)
  let rows := scopedRows.filter (fun r => filters.all (fun kv => matchesFilter r kv))
  let lim := min (max plan.limit 1) 50
  if dims.isEmpty then
    match metrics with
    | [] => .answerRes (Int.ofNat rows.length) "count" true
    | [m] => .answerRes (sumMetric rows m) m true
    | ms =>
      if plan.chart_type = "answer" then
        .answerRes (sumMetric rows (ms.headD "")) (ms.headD "") true
      else
        .tableRes (ms.map (fun m => ([m], [sumMetric rows m])))
  else
    let keys := (rows.map (fun r => groupKeyOf dims r)).eraseDups
    let groups := keys.map (fun k =>
      (k, if metrics.isEmpty then
            [Int.ofNat (rows.filter (fun r => groupKeyOf dims r == k)).length]
          else
            metrics.map (fun m => sumMetric (rows.filter (fun r => groupKeyOf dims r == k)) m)))
    let top := (sortBy groupLe groups).take lim
    match plan.chart_type with
    | "table" => .tableRes top
    | "answer" => .answerRes ((top.headD ([], [])).2.headD 0) ds true
    | ct =>
      .chartRes ct (top.map (fun g => String.intercalate " / " g.1))
        ((List.range (if metrics.isEmpty then 1 else metrics.length)).map
          (fun i => top.map (fun g => g.2.getD i 0)))

/-- Modelled from the spec: the mandatory tenant-scoping predicate of section
4.6 step 3, applied to the resolved record source always, regardless of the
plan filters. -/
def tenantScoped (db : String → Option (List Record)) (ds : String) (t : Nat) :
    List Record :=
  ((db ds).getD []).filter (fun r => r.org == t)

/-- Modelled from the spec: the Plan Executor `run_plan` of
`analytics/analytics_executor.py`, imported by `ask_views.py` but absent from
the source tree; assembled from spec section 4.6: resolve the dataset via the
registry (unknown dataset yields an error-shaped Answer with failure status),
then the mandatory tenant scoping, then validation, filtering, aggregation
and shaping. -/
def run_plan (db : String → Option (List Record)) (cat : List CatalogEntry)
    (plan : Plan) (tenant : Nat) : QueryResult :=
  match db plan.dataset with
  | none => .answerRes 0 ("Unknown dataset: " ++ plan.dataset) false
  | some _ => run_plan_scoped cat plan (tenantScoped db plan.dataset tenant)

/-- The database with every record of tenant `t` deleted from every dataset. -/
def removeTenant (db : String → Option (List Record)) (t : Nat) :
    String → Option (List Record) :=
  fun ds => (db ds).map (fun l => l.filter (fun r => !(r.org == t)))

/-- Scoping to tenant `t1` ignores a prior deletion of a different tenant. -/
lemma filter_scope_of_remove (t1 t2 : Nat) (h : t1 ≠ t2) (l : List Record) :
    (l.filter (fun r => !(r.org == t2))).filter (fun r => r.org == t1) =
      l.filter (fun r => r.org == t1) := by
  induction l with
  | nil => rfl
  | cons r l ih =>
    by_cases h1 : r.org = t1
    · have h2 : ¬(r.org = t2) := by rw [h1]; exact h
      simp [List.filter_cons, h1, h2, ih, h, Ne.symm h]
    · by_cases h2 : r.org = t2
      · simp [List.filter_cons, h1, h2, ih, h, Ne.symm h]
      · simp [List.filter_cons, h1, h2, ih, h, Ne.symm h]

/-- The tenant-scoped rows of `t1` are unchanged by deleting tenant `t2`. -/
lemma tenantScoped_removeTenant (db : String → Option (List Record)) (ds : String)
    (t1 t2 : Nat) (h : t1 ≠ t2) :
    tenantScoped (removeTenant db t2) ds t1 = tenantScoped db ds t1 := by
  unfold tenantScoped removeTenant
  cases hdb : db ds with
  | none => rfl
  | some l => simpa using filter_scope_of_remove t1 t2 h l

/-- Claim C1: the Plan Executor applies the mandatory tenant-scoping
predicate for every plan, whatever its filters say, so for two distinct
tenants (whose record sets are therefore disjoint) the result computed for
tenant `t1` is identical when every record of tenant `t2` is removed from the
database — nothing in the returned rows comes from the other tenant — and
every record the executor aggregates over belongs to `t1`, not to `t2`. -/
theorem claim_C1 (db : String → Option (List Record)) (cat : List CatalogEntry)
    (plan : Plan) (t1 t2 : Nat) (h : t1 ≠ t2) :
    run_plan (removeTenant db t2) cat plan t1 = run_plan db cat plan t1 ∧
    ∀ r ∈ tenantScoped db plan.dataset t1, r.org = t1 ∧ r.org ≠ t2 := by
  constructor
  · unfold run_plan
    cases hdb : db plan.dataset with
    | none =>
      have hrm : removeTenant db t2 plan.dataset = none := by simp [removeTenant, hdb]
      rw [hrm]
    | some l =>
      have hrm : removeTenant db t2 plan.dataset =
          some (l.filter (fun r => !(r.org == t2))) := by simp [removeTenant, hdb]
      rw [hrm]
      rw [tenantScoped_removeTenant db plan.dataset t1 t2 h]
  · intro r hr
    unfold tenantScoped at hr
    rcases List.mem_filter.mp hr with ⟨-, horg⟩
    have h1 : r.org = t1 := by simpa using horg
    exact ⟨h1, by rw [h1]; exact h⟩

/-- Example data for the claim C1 witness: one dataset shared by two tenants. -/
def exDb : String → Option (List Record) := fun ds =>
  if ds = "employee" then
    some [Record.mk 1 [("role", Value.str "manager")],
          Record.mk 2 [("role", Value.str "developer")],
          Record.mk 1 [("role", Value.str "developer")]]
  else none

/-- Example catalog for the claim C1 witness. -/
def exCat : List CatalogEntry :=
  [CatalogEntry.mk "employee" "role" false true]

/-- Example plan for the claim C1 witness. -/
def exPlan : Plan := Plan.mk "employee" [] ["role"] [] "bar" 50

/-- Claim C1, witness: with tenants 1 and 2 sharing the employee dataset,
deleting every record of tenant 2 leaves the result of tenant 1 unchanged. -/
theorem claim_C1_witness :
    run_plan (removeTenant exDb 2) exCat exPlan 1 = run_plan exDb exCat exPlan 1 :=
  (claim_C1 exDb exCat exPlan 1 2 (by decide)).1

end Propel
